import Mathlib

/-!
A shallow embedding of the comment core of the discuit repository
(`core/comment.go`): the comment data model, the vote ledger operations
(`Vote`, `DeleteVote`, `ChangeVote`), editing (`Save`), soft deletion
(`Delete`, `stripDeletedInfo`), posted-as changes (`ChangeUserGroup`),
comment insertion (`addComment`) and author hydration
(`populateCommentAuthors`), together with theorems settling the spec's
claims about them.

Modelling conventions: `uid.ID` is a `Nat` (only equality and the zero
value matter); timestamps are `Nat`; Go `int` columns are `Int`;
`sql.Null*` values are `Option`s; a fallible operation returns
`Except CoreErr α`, and an `.error` result models a rolled-back
transaction, i.e. no state change. External collaborators (the post-lock
query, the moderator lookup `UserMod`, the user lookup `GetUser`, the
batch author lookup `GetUsersIDs`, the reputation update
`incrementUserPoints`) are passed in as values or functions; a
reputation update is recorded as the `repCall` field of a vote
operation's outcome (the `(target, amount)` of the `incrementUserPoints`
call, `none` when no call is made).
-/

namespace Discuit

/-- `uid.ID`: only equality and the zero value (`uid.ID.Clear`) matter. -/
abbrev ID := Nat

/-- Timestamps, abstract. -/
abbrev Time := Nat

/-- `UserGroup` is an integer-typed enum in Go; only the distinctness of
the three named tiers (and of `NaN`) matters here. -/
abbrev UserGroup := Nat

/-- Modelled from the spec: the zero/invalid user-group value (the Go
constants are not under `src/`; only distinctness is used). -/
def userGroupNaN : UserGroup := 0

/-- Modelled from the spec: the "self"/normal tier. -/
def userGroupNormal : UserGroup := 1

/-- Modelled from the spec: the site-admin tier. -/
def userGroupAdmins : UserGroup := 2

/-- Modelled from the spec: the community-moderator tier. -/
def userGroupMods : UserGroup := 3

/-- The slice of `core.User` the comment core reads: identity, username
and the site-admin flag. -/
structure User where
  id : ID
  username : String
  admin : Bool
  deriving Repr, DecidableEq, Inhabited

/-- The slice of `core.Post` that `addComment` reads. -/
structure Post where
  id : ID
  publicID : String
  authorID : ID
  communityID : ID
  communityName : String
  deriving Repr, DecidableEq, Inhabited

/-- `core.Comment` (the fields the claims touch), mirroring the Go
struct and the `comments` table row it is scanned from. -/
structure Comment where
  id : ID
  postID : ID
  postPublicID : String
  communityID : ID
  communityName : String
  authorID : ID
  authorUsername : String
  postedAs : UserGroup
  authorDeleted : Bool
  parentID : Option ID
  depth : Int
  numReplies : Int
  numRepliesDirect : Int
  ancestors : List ID
  body : String
  upvotes : Int
  downvotes : Int
  points : Int
  createdAt : Time
  editedAt : Option Time
  deletedAt : Option Time
  deletedBy : Option ID
  deletedAs : UserGroup
  author : Option User
  viewerVoted : Option Bool
  viewerVotedUp : Option Bool
  deriving Repr, DecidableEq, Inhabited

/-- The error values the comment core can return (each a distinct
`httperr`/sentinel error in Go). -/
inductive CoreErr where
  | commentDeleted
  | notAuthor
  | notMod
  | notAdmin
  | invalidUserGroup
  | postLocked
  | alreadyVoted
  | voteNotFound
  | replyToDeleted
  | maxDepthReached
  | authorNotFound
  deriving Repr, DecidableEq, Inhabited

/-- `Comment.Deleted`: a comment is deleted iff `deleted_at` is set. -/
def Comment.Deleted (c : Comment) : Bool := c.deletedAt.isSome

/-- Modelled from the spec: the maximum comment body length in code
points (the constant is not under `src/`; its value is irrelevant to the
claims). -/
def maxCommentBodyLength : Nat := 5000

/-- Modelled from the spec: the maximum comment depth (the constant is
not under `src/`; its value is irrelevant to the claims). -/
def maxCommentDepth : Int := 15

/-- `utils.TruncateUnicodeString`: truncate to a maximum number of code
points. -/
def truncateUnicodeString (s : String) (n : Nat) : String :=
  ⟨s.data.take n⟩

/-- A row of the `comment_votes` table: one vote record per
(comment, user) pair, with an auto-increment row id and a direction. -/
structure CommentVote where
  id : Nat
  commentID : ID
  userID : ID
  up : Bool
  deriving Repr, DecidableEq, Inhabited

/-- The outcome of a successful vote-ledger operation: the updated
comment (row and in-memory copy receive the same tally delta), the
updated `comment_votes` table, and the `incrementUserPoints` call made
for the author's reputation (`none` when no call is made). -/
structure VoteOutcome where
  comment : Comment
  votes : List CommentVote
  repCall : Option (ID × Int)
  deriving Repr, DecidableEq, Inhabited

/-- `Comment.Vote`: guarded by the deleted comment and locked post
checks; inserts a ledger row (rejected as `already-voted` when the
unique `(comment_id, user_id)` constraint is violated), then applies
`+1` to the matching tally column and `±1` to `points`; reputation
(`incrementUserPoints(author, 1)`) is adjusted only for an upvote by a
user other than the author. `postLocked` is the result of
`IsPostLocked`; `nextID` is the fresh auto-increment row id. -/
def Comment.vote (c : Comment) (votes : List CommentVote) (postLocked : Bool)
    (nextID : Nat) (user : ID) (up : Bool) : Except CoreErr VoteOutcome :=
  if c.Deleted then .error .commentDeleted
  else if postLocked then .error .postLocked
  else if votes.any (fun v => v.commentID == c.id && v.userID == user) then
    .error .alreadyVoted
  else
    let point : Int := if up then 1 else -1
    let c' : Comment := { c with
      points := c.points + point
      upvotes := if up then c.upvotes + 1 else c.upvotes
      downvotes := if up then c.downvotes else c.downvotes + 1
      viewerVoted := some true
      viewerVotedUp := some up }
    let rep : Option (ID × Int) :=
      if up && !(c.authorID == user) then some (c.authorID, 1) else none
    .ok ⟨c', votes ++ [⟨nextID, c.id, user, up⟩], rep⟩

/-- `Comment.DeleteVote`: guarded like `Vote`; looks up the existing
ledger row (error when absent, modelling `row.Scan` on zero rows),
deletes it and reverses its tally contribution; reputation
(`incrementUserPoints(author, -1)`) is adjusted only when the removed
vote was an upvote and the actor is not the author. -/
def Comment.deleteVote (c : Comment) (votes : List CommentVote)
    (postLocked : Bool) (user : ID) : Except CoreErr VoteOutcome :=
  if c.Deleted then .error .commentDeleted
  else if postLocked then .error .postLocked
  else
    match votes.find? (fun v => v.commentID == c.id && v.userID == user) with
    | none => .error .voteNotFound
    | some v =>
      let point : Int := if v.up then -1 else 1
      let c' : Comment := { c with
        points := c.points + point
        upvotes := if v.up then c.upvotes - 1 else c.upvotes
        downvotes := if v.up then c.downvotes else c.downvotes - 1
        viewerVoted := none
        viewerVotedUp := none }
      let rep : Option (ID × Int) :=
        if v.up && !(c.authorID == user) then some (c.authorID, -1) else none
      .ok ⟨c', votes.filter (fun w => !(w.id == v.id)), rep⟩

/-- `Comment.ChangeVote`: guarded like `Vote`; looks up the existing
ledger row (error when absent); a no-op success when the recorded
direction equals the requested one; otherwise flips the row, applies a
`±2` points delta while moving one count between the upvote and
downvote columns, and adjusts reputation by `-1` (up to down) or `+1`
(down to up) when the actor is not the author. -/
def Comment.changeVote (c : Comment) (votes : List CommentVote)
    (postLocked : Bool) (user : ID) (up : Bool) : Except CoreErr VoteOutcome :=
  if c.Deleted then .error .commentDeleted
  else if postLocked then .error .postLocked
  else
    match votes.find? (fun v => v.commentID == c.id && v.userID == user) with
    | none => .error .voteNotFound
    | some v =>
      if v.up == up then .ok ⟨c, votes, none⟩
      else
        let points : Int := if v.up then -2 else 2
        let c' : Comment := { c with
          points := c.points + points
          upvotes := if v.up then c.upvotes - 1 else c.upvotes + 1
          downvotes := if v.up then c.downvotes + 1 else c.downvotes - 1
          viewerVotedUp := some up }
        let votes' := votes.map (fun w => if w.id == v.id then { w with up := up } else w)
        let rep : Option (ID × Int) :=
          if !(c.authorID == user) then
            some (c.authorID, if v.up then -1 else 1)
          else none
        .ok ⟨c', votes', rep⟩

/-- `Comment.Save`: rejected on a deleted comment or a non-author
editor; otherwise truncates the body and sets the edit timestamp. -/
def Comment.save (c : Comment) (user : ID) (now : Time) : Except CoreErr Comment :=
  if c.Deleted then .error .commentDeleted
  else if !(c.authorID == user) then .error .notAuthor
  else
    .ok { c with
      body := truncateUnicodeString c.body maxCommentBodyLength
      editedAt := some now }

/-- `Comment.stripDeletedInfo`: on a deleted comment, clears the author
identity (`uid.ID.Clear` zeroes the id), replaces the username, group,
and body with fixed redaction values, and invalidates the per-viewer
vote flags and the `Author` record; every other field is untouched. -/
def Comment.stripDeletedInfo (c : Comment) : Comment :=
  if !c.Deleted then c
  else { c with
    authorID := 0
    authorUsername := "Hidden"
    postedAs := userGroupNaN
    body := "[Deleted comment]"
    viewerVoted := none
    viewerVotedUp := none
    author := none }

/-- The in-memory state `Comment.Delete` leaves after its transaction
commits: deletion metadata set, then `stripDeletedInfo` (the persisted
row additionally has `body = ""`, which `stripDeletedInfo` also
overrides in the returned representation). -/
def Comment.deleteApply (c : Comment) (user : ID) (g : UserGroup) (now : Time) : Comment :=
  Comment.stripDeletedInfo
    { c with deletedAt := some now, deletedBy := some user, deletedAs := g }

/-- `Comment.Delete`: rejected on an already-deleted comment; then the
three-tier authority switch (`normal` requires the actor to be the
author, `mods` requires the external `UserMod` lookup to be true,
`admins` requires the actor's `Admin` flag, anything else is an invalid
user group); on success the comment is soft-deleted and redacted.
`userIsMod` is the `UserMod(communityID, user)` result and `actor` the
`GetUser(user)` result. -/
def Comment.delete (c : Comment) (user : ID) (g : UserGroup) (userIsMod : Bool)
    (actor : User) (now : Time) : Except CoreErr Comment :=
  if c.Deleted then .error .commentDeleted
  else if g == userGroupNormal then
    if !(c.authorID == user) then .error .notAuthor
    else .ok (c.deleteApply user g now)
  else if g == userGroupMods then
    if !userIsMod then .error .notMod
    else .ok (c.deleteApply user g now)
  else if g == userGroupAdmins then
    if !actor.admin then .error .notAdmin
    else .ok (c.deleteApply user g now)
  else .error .invalidUserGroup

/-- `Comment.ChangeUserGroup`: rejected for non-authors; an immediate
no-op success when the requested tier equals the current `PostedAs`
(before any tier verification); otherwise the tier switch verifies the
moderator/admin standing and updates the posted-as group. -/
def Comment.changeUserGroup (c : Comment) (author : ID) (g : UserGroup)
    (userIsMod : Bool) (authorUser : User) : Except CoreErr Comment :=
  if !(c.authorID == author) then .error .notAuthor
  else if c.postedAs == g then .ok c
  else if g == userGroupNormal then .ok { c with postedAs := g }
  else if g == userGroupMods then
    if !userIsMod then .error .notMod
    else .ok { c with postedAs := g }
  else if g == userGroupAdmins then
    if !authorUser.admin then .error .notAdmin
    else .ok { c with postedAs := g }
  else .error .invalidUserGroup

/-- The comment row `addComment` inserts: depth and ancestors computed
from the optional parent, counters zeroed, body already truncated. -/
def newCommentRow (post : Post) (author : User) (parent : Option Comment)
    (body : String) (newID : ID) (now : Time) : Comment :=
  { id := newID
    postID := post.id
    postPublicID := post.publicID
    communityID := post.communityID
    communityName := post.communityName
    authorID := author.id
    authorUsername := author.username
    postedAs := userGroupNormal
    authorDeleted := false
    parentID := parent.map (·.id)
    depth := match parent with | some p => p.depth + 1 | none => 0
    numReplies := 0
    numRepliesDirect := 0
    ancestors := match parent with | some p => p.ancestors ++ [p.id] | none => []
    body := body
    upvotes := 0
    downvotes := 0
    points := 0
    createdAt := now
    editedAt := none
    deletedAt := none
    deletedBy := none
    deletedAs := userGroupNaN
    author := none
    viewerVoted := none
    viewerVotedUp := none }

/-- The two reply-counter updates `addComment` runs when a parent
exists: `no_replies_direct + 1` on the row with the parent's id, then
`no_replies + 1` on every row whose id is in the new comment's ancestor
list (which is `parent.ancestors ++ [parent.id]`). -/
def updateReplyCounts (table : List Comment) (parentID : ID)
    (ancestors : List ID) : List Comment :=
  table.map (fun c =>
    let c := if c.id == parentID then
               { c with numRepliesDirect := c.numRepliesDirect + 1 }
             else c
    if ancestors.contains c.id then
      { c with numReplies := c.numReplies + 1 }
    else c)

/-- The comment-table effect of a successful `addComment`: the inserted
row and the pre-existing comments table after the reply-counter
updates. (The post's `no_comments`/`last_activity_at` bump, the
profile-activity and reply-edge inserts, and the author's `no_comments`
bump touch other tables and are outside the claims.) -/
structure AddCommentResult where
  comment : Comment
  comments : List Comment
  deriving Repr, DecidableEq, Inhabited

/-- `addComment`: truncates the body; when a parent id was given,
`parent` is the fetched parent comment (a lookup failure would have
propagated before this point), which must be neither deleted nor at the
maximum depth; computes ancestors as `parent.ancestors ++ [parent.id]`;
inserts the new row and performs the reply-counter fan-out on the
comments table. -/
def addComment (post : Post) (author : User) (parent : Option Comment)
    (body : String) (newID : ID) (now : Time) (comments : List Comment) :
    Except CoreErr AddCommentResult :=
  let body := truncateUnicodeString body maxCommentBodyLength
  match parent with
  | none => .ok ⟨newCommentRow post author none body newID now, comments⟩
  | some p =>
    if p.Deleted then .error .replyToDeleted
    else if p.depth == maxCommentDepth then .error .maxDepthReached
    else
      .ok ⟨newCommentRow post author (some p) body newID now,
           updateReplyCounts comments p.id (p.ancestors ++ [p.id])⟩

/-- The distinct author ids of the non-deleted comments, in first-seen
order (the `authorIDs`/`found` accumulation loop of
`populateCommentAuthors`). -/
def collectAuthorIDs (comments : List Comment) : List ID :=
  comments.foldl
    (fun acc c =>
      if !c.Deleted && !acc.contains c.authorID then acc ++ [c.authorID] else acc)
    []

/-- `populateCommentAuthors`: collects the author ids of non-deleted
comments, batch-looks them up (`lookup` is `GetUsersIDs`), and attaches
each matching `User` to its comments. The source initializes its
`found` flag to `true` and never assigns it again, so the
`panic("author not found")` guard can never fire; a comment whose
author id is absent from the lookup result keeps a nil `Author` and no
error is raised. The `found` flag is reproduced verbatim. -/
def populateCommentAuthors (comments : List Comment)
    (lookup : List ID → List User) : Except CoreErr (List Comment) :=
  let authorIDs := collectAuthorIDs comments
  if authorIDs.isEmpty then .ok comments
  else
    let authors := lookup authorIDs
    comments.mapM (fun c =>
      let found := true
      let c := match authors.find? (fun a => a.id == c.authorID) with
        | some a => { c with author := some a }
        | none => c
      if found then .ok c else .error .authorNotFound)

/-- Whether a fallible operation succeeded. -/
def succeeds {α : Type} : Except CoreErr α → Bool
  | .ok _ => true
  | .error _ => false

/-- A concrete active root comment (id 1, author 10), used by witnesses. -/
def cActive : Comment :=
  { id := 1
    postID := 100
    postPublicID := "p1"
    communityID := 200
    communityName := "books"
    authorID := 10
    authorUsername := "alice"
    postedAs := userGroupNormal
    authorDeleted := false
    parentID := none
    depth := 0
    numReplies := 0
    numRepliesDirect := 0
    ancestors := []
    body := "hello"
    upvotes := 0
    downvotes := 0
    points := 0
    createdAt := 0
    editedAt := none
    deletedAt := none
    deletedBy := none
    deletedAs := userGroupNaN
    author := none
    viewerVoted := none
    viewerVotedUp := none }

/-- `cActive` after a soft delete timestamp is set. -/
def cDeleted : Comment := { cActive with deletedAt := some 5 }

/-- `cActive` carrying one upvote (upvotes 1, points 1). -/
def cUpvoted : Comment := { cActive with upvotes := 1, points := 1 }

/-- `cActive` posted in the moderator capacity. -/
def cModPosted : Comment := { cActive with postedAs := userGroupMods }

/-- The ledger row of user 99's upvote on comment 1. -/
def voteUp1by99 : CommentVote := ⟨7, 1, 99, true⟩

/-- The post comment 1 belongs to. -/
def post0 : Post := ⟨100, "p1", 20, 200, "books"⟩

/-- The author of `cActive` (not a site admin). -/
def author0 : User := ⟨10, "alice", false⟩

/-- A second user, used as a commenter in witnesses. -/
def author1 : User := ⟨11, "bob", false⟩

/-- The outcome of user 99 upvoting `cActive` on an empty ledger. -/
def voteUpRes : VoteOutcome :=
  match cActive.vote [] false 7 99 true with
  | .ok r => r
  | .error _ => default

/-- The outcome of user 99 downvoting `cActive` on an empty ledger. -/
def voteDownRes : VoteOutcome :=
  match cActive.vote [] false 7 99 false with
  | .ok r => r
  | .error _ => default

/-- The outcome of user 99 flipping their upvote on `cUpvoted` to a
downvote. -/
def changeRes : VoteOutcome :=
  match cUpvoted.changeVote [voteUp1by99] false 99 false with
  | .ok r => r
  | .error _ => default

/-- The result of `author1` replying to `cActive` on a table holding
only `cActive`. -/
def addResChild : AddCommentResult :=
  match addComment post0 author1 (some cActive) "hi" 55 9 [cActive] with
  | .ok r => r
  | .error _ => default

/-- C3: every mutating operation on a comment observed as deleted —
`Save`, `Vote`, `DeleteVote`, `ChangeVote`, and a second `Delete` — is
rejected with the comment-deleted error. Each operation returns before
issuing any statement, and an `.error` result carries no updated state,
so both the persisted row and the in-memory comment are unchanged:
deletion is a one-way, final transition. -/
theorem c3_deleted_is_final (c : Comment) (h : c.Deleted = true) (user : ID)
    (now : Time) (votes : List CommentVote) (locked : Bool) (nextID : Nat)
    (up : Bool) (g : UserGroup) (isMod : Bool) (actor : User) :
    c.save user now = .error .commentDeleted
    ∧ c.vote votes locked nextID user up = .error .commentDeleted
    ∧ c.deleteVote votes locked user = .error .commentDeleted
    ∧ c.changeVote votes locked user up = .error .commentDeleted
    ∧ c.delete user g isMod actor now = .error .commentDeleted := by
  refine ⟨?_, ?_, ?_, ?_, ?_⟩ <;>
    simp [Comment.save, Comment.vote, Comment.deleteVote, Comment.changeVote,
      Comment.delete, h]

/-- Witness for C3 at the concrete deleted comment `cDeleted`. -/
theorem c3_deleted_is_final_witness :
    cDeleted.Deleted = true
    ∧ cDeleted.save 10 3 = .error .commentDeleted
    ∧ cDeleted.vote [] false 7 10 true = .error .commentDeleted
    ∧ cDeleted.deleteVote [] false 10 = .error .commentDeleted
    ∧ cDeleted.changeVote [] false 10 true = .error .commentDeleted
    ∧ cDeleted.delete 10 userGroupNormal false author0 3 = .error .commentDeleted :=
  ⟨rfl, c3_deleted_is_final cDeleted rfl 10 3 [] false 7 true userGroupNormal false author0⟩

/-- C4: the redaction applied to every deleted comment returned to a
caller (`stripDeletedInfo`, run by `scanComments` on every result and by
`Delete` on the in-memory comment) replaces the body, author id,
username, posted-as group, `Author` record and per-viewer vote flags
with fixed cleared values, while the id, parent id, ancestor path,
depth and all counters (replies, upvotes, downvotes, points) keep the
values they had at deletion time. -/
theorem c4_deleted_redaction (c : Comment) (h : c.Deleted = true) :
    c.stripDeletedInfo.body = "[Deleted comment]"
    ∧ c.stripDeletedInfo.authorID = 0
    ∧ c.stripDeletedInfo.authorUsername = "Hidden"
    ∧ c.stripDeletedInfo.postedAs = userGroupNaN
    ∧ c.stripDeletedInfo.author = none
    ∧ c.stripDeletedInfo.viewerVoted = none
    ∧ c.stripDeletedInfo.viewerVotedUp = none
    ∧ c.stripDeletedInfo.id = c.id
    ∧ c.stripDeletedInfo.parentID = c.parentID
    ∧ c.stripDeletedInfo.ancestors = c.ancestors
    ∧ c.stripDeletedInfo.depth = c.depth
    ∧ c.stripDeletedInfo.numReplies = c.numReplies
    ∧ c.stripDeletedInfo.numRepliesDirect = c.numRepliesDirect
    ∧ c.stripDeletedInfo.upvotes = c.upvotes
    ∧ c.stripDeletedInfo.downvotes = c.downvotes
    ∧ c.stripDeletedInfo.points = c.points := by
  simp [Comment.stripDeletedInfo, h]

/-- Witness for C4 at the concrete deleted comment `cDeleted`. -/
theorem c4_deleted_redaction_witness :
    cDeleted.stripDeletedInfo.body = "[Deleted comment]"
    ∧ cDeleted.stripDeletedInfo.authorID = 0
    ∧ cDeleted.stripDeletedInfo.authorUsername = "Hidden"
    ∧ cDeleted.stripDeletedInfo.postedAs = userGroupNaN
    ∧ cDeleted.stripDeletedInfo.author = none
    ∧ cDeleted.stripDeletedInfo.viewerVoted = none
    ∧ cDeleted.stripDeletedInfo.viewerVotedUp = none
    ∧ cDeleted.stripDeletedInfo.id = cDeleted.id
    ∧ cDeleted.stripDeletedInfo.parentID = cDeleted.parentID
    ∧ cDeleted.stripDeletedInfo.ancestors = cDeleted.ancestors
    ∧ cDeleted.stripDeletedInfo.depth = cDeleted.depth
    ∧ cDeleted.stripDeletedInfo.numReplies = cDeleted.numReplies
    ∧ cDeleted.stripDeletedInfo.numRepliesDirect = cDeleted.numRepliesDirect
    ∧ cDeleted.stripDeletedInfo.upvotes = cDeleted.upvotes
    ∧ cDeleted.stripDeletedInfo.downvotes = cDeleted.downvotes
    ∧ cDeleted.stripDeletedInfo.points = cDeleted.points :=
  c4_deleted_redaction cDeleted rfl

/-- C10: when the actor is the comment's author and the requested tier
equals the current posted-as tier, `ChangeUserGroup` returns success
immediately — for every value of the moderator lookup and of the
actor's admin flag, so no tier verification is performed and the call
succeeds even when the author no longer holds that tier. -/
theorem c10_change_user_group_noop (c : Comment) (author : ID) (g : UserGroup)
    (isMod : Bool) (authorUser : User) (ha : c.authorID = author)
    (hg : c.postedAs = g) :
    c.changeUserGroup author g isMod authorUser = .ok c := by
  simp [Comment.changeUserGroup, ha, hg]

/-- Witness for C10: `cModPosted` was posted as a moderator; its author
asks for the moderator tier again while the moderator lookup is `false`
and the admin flag is `false`, and the call still succeeds. -/
theorem c10_change_user_group_noop_witness :
    cModPosted.changeUserGroup 10 userGroupMods false author0 = .ok cModPosted
    ∧ cModPosted.postedAs = userGroupMods :=
  ⟨c10_change_user_group_noop cModPosted 10 userGroupMods false author0 rfl rfl, rfl⟩

/-- C9: the authority matrix of `Delete` on an active comment: the self
tier succeeds exactly when the actor is the author, the moderator tier
exactly when the external moderator lookup is true, the admin tier
exactly when the actor's admin flag is set, and any other tier value
fails with the invalid-authority error. -/
theorem c9_delete_authority (c : Comment) (user : ID) (isMod : Bool)
    (actor : User) (now : Time) (g : UserGroup) (hd : c.Deleted = false) :
    (succeeds (c.delete user userGroupNormal isMod actor now) = true ↔ c.authorID = user)
    ∧ (succeeds (c.delete user userGroupMods isMod actor now) = true ↔ isMod = true)
    ∧ (succeeds (c.delete user userGroupAdmins isMod actor now) = true ↔ actor.admin = true)
    ∧ (g ≠ userGroupNormal → g ≠ userGroupMods → g ≠ userGroupAdmins →
        c.delete user g isMod actor now = .error .invalidUserGroup) := by
  refine ⟨?_, ?_, ?_, fun h1 h2 h3 => ?_⟩
  · by_cases hau : c.authorID = user <;>
      simp [Comment.delete, succeeds, hd, hau, userGroupNormal, userGroupMods,
        userGroupAdmins]
  · cases isMod <;>
      simp [Comment.delete, succeeds, hd, userGroupNormal, userGroupMods,
        userGroupAdmins]
  · cases hadm : actor.admin <;>
      simp [Comment.delete, succeeds, hd, hadm, userGroupNormal, userGroupMods,
        userGroupAdmins]
  · simp [Comment.delete, hd, beq_iff_eq, h1, h2, h3]

/-- Witness for C9: the author (user 10) deleting `cActive` in the self
tier succeeds; an unrecognized tier value (99) fails with the
invalid-authority error. -/
theorem c9_delete_authority_witness :
    (succeeds (cActive.delete 10 userGroupNormal false author0 3) = true
      ↔ cActive.authorID = 10)
    ∧ cActive.delete 10 99 false author0 3 = .error .invalidUserGroup := by
  have h := c9_delete_authority cActive 10 false author0 3 99 rfl
  exact ⟨h.1, h.2.2.2 (by decide) (by decide) (by decide)⟩

/-- C8: a second `Vote` by a user who already holds a ledger row on the
comment is rejected with the duplicate-vote (already-voted) error; the
rejected call returns an `.error`, which carries no updated state, so
the upvote, downvote and point tallies are unchanged. -/
theorem c8_duplicate_vote (c : Comment) (votes : List CommentVote) (nextID : Nat)
    (user : ID) (up : Bool) (v : CommentVote) (hd : c.Deleted = false)
    (hv : v ∈ votes) (hc : v.commentID = c.id) (hu : v.userID = user) :
    c.vote votes false nextID user up = .error .alreadyVoted := by
  have hany : votes.any (fun w => w.commentID == c.id && w.userID == user) = true :=
    List.any_eq_true.mpr ⟨v, hv, by simp [hc, hu]⟩
  simp [Comment.vote, hd, hany]

/-- Witness for C8: user 99, who holds the upvote row `voteUp1by99` on
comment 1, votes again and is rejected. -/
theorem c8_duplicate_vote_witness :
    cUpvoted.vote [voteUp1by99] false 8 99 false = .error .alreadyVoted :=
  c8_duplicate_vote cUpvoted [voteUp1by99] 8 99 false voteUp1by99 rfl
    (List.mem_singleton.mpr rfl) rfl rfl

/-- C2: the failing input made concrete. A retrieval result holding one
non-deleted comment whose author id the batch lookup does not resolve
is returned successfully with a nil `Author` field: the source
initializes its `found` flag to `true` and never clears it, so the
author-not-found integrity check (`panic("author not found")`) can
never fire, contradicting both the spec and the code's own assertion. -/
theorem c2_missing_author_not_fatal :
    populateCommentAuthors [cActive] (fun _ => []) = .ok [cActive]
    ∧ cActive.Deleted = false
    ∧ cActive.author = none := ⟨rfl, rfl, rfl⟩

/-- C5: a comment created by a successful `addComment` has
`depth = parent.depth + 1` and `ancestors = parent.ancestors ++ [parent.id]`
when a parent was given, and `depth = 0` with empty ancestors when not. -/
theorem c5_depth_ancestors (post : Post) (author : User) (parent : Option Comment)
    (body : String) (newID : ID) (now : Time) (table : List Comment)
    (r : AddCommentResult)
    (h : addComment post author parent body newID now table = .ok r) :
    (∀ p, parent = some p →
      r.comment.depth = p.depth + 1 ∧ r.comment.ancestors = p.ancestors ++ [p.id])
    ∧ (parent = none → r.comment.depth = 0 ∧ r.comment.ancestors = []) := by
  constructor
  · rintro p rfl
    simp only [addComment] at h
    split at h
    · exact Except.noConfusion h
    · split at h
      · exact Except.noConfusion h
      · injection h with h
        subst h
        simp [newCommentRow]
  · rintro rfl
    simp only [addComment] at h
    injection h with h
    subst h
    simp [newCommentRow]

/-- Witness for C5 at the concrete reply `addResChild` of `cActive`. -/
theorem c5_depth_ancestors_witness :
    addResChild.comment.depth = cActive.depth + 1
    ∧ addResChild.comment.ancestors = cActive.ancestors ++ [cActive.id] :=
  (c5_depth_ancestors post0 author1 (some cActive) "hi" 55 9 [cActive]
    addResChild rfl).1 cActive rfl

/-- C6 counterexample: replying to the root comment `cActive` (which
has no ancestors, so the claim says no total-reply counter may change)
bumps `cActive`'s own total-reply counter from 0 to 1, because the
`no_replies` update runs over the new comment's ancestor list, which
includes the parent itself. -/
theorem c6_counterexample :
    addComment post0 author1 (some cActive) "hi" 55 9 [cActive] = .ok addResChild
    ∧ addResChild.comments.map (fun d => (d.id, d.numRepliesDirect, d.numReplies))
        = [(1, 1, 1)]
    ∧ cActive.ancestors = []
    ∧ cActive.numReplies = 0
    ∧ cActive.numRepliesDirect = 0 := ⟨rfl, rfl, rfl, rfl, rfl⟩

/-- C6 (amended): a successful `addComment` with parent `X` increments
`X`'s direct-reply counter by 1 and `X`'s own total-reply counter by 1,
increments the total-reply counter of every comment whose id is among
`X`'s ancestors by 1, and changes no other comment's counters. -/
theorem c6_reply_counter_frame (post : Post) (author : User) (p : Comment)
    (body : String) (newID : ID) (now : Time) (table : List Comment)
    (r : AddCommentResult)
    (h : addComment post author (some p) body newID now table = .ok r) :
    r.comments = table.map (fun d =>
      if d.id = p.id then
        { d with numRepliesDirect := d.numRepliesDirect + 1,
                 numReplies := d.numReplies + 1 }
      else if d.id ∈ p.ancestors then
        { d with numReplies := d.numReplies + 1 }
      else d) := by
  simp only [addComment] at h
  split at h
  · exact Except.noConfusion h
  · split at h
    · exact Except.noConfusion h
    · injection h with h
      subst h
      show updateReplyCounts table p.id (p.ancestors ++ [p.id]) = _
      unfold updateReplyCounts
      apply List.map_congr_left
      intro d _
      by_cases h1 : d.id = p.id
      · simp [h1]
      · by_cases h2 : d.id ∈ p.ancestors <;> simp [h1, h2]

/-- Witness for C6 at the concrete reply `addResChild` of `cActive`. -/
theorem c6_reply_counter_frame_witness :
    addResChild.comments = [cActive].map (fun d =>
      if d.id = cActive.id then
        { d with numRepliesDirect := d.numRepliesDirect + 1,
                 numReplies := d.numReplies + 1 }
      else if d.id ∈ cActive.ancestors then
        { d with numReplies := d.numReplies + 1 }
      else d) :=
  c6_reply_counter_frame post0 author1 cActive "hi" 55 9 [cActive] addResChild rfl

/-- C1 counterexample: a successful fresh downvote (user 99, not the
author) on `cActive` makes no `incrementUserPoints` call at all, where
the claim requires a `-1` reputation delta for a new downvote. -/
theorem c1_counterexample :
    cActive.vote [] false 7 99 false = .ok voteDownRes
    ∧ voteDownRes.repCall = none
    ∧ cActive.authorID ≠ 99
    ∧ voteDownRes.comment.downvotes = 1 := ⟨rfl, rfl, by decide, rfl⟩

/-- C1 (amended): when the voted-on comment's author differs from the
acting user, the reputation adjustment (`incrementUserPoints` call,
recorded in `repCall`) is: `+1` for a new upvote and nothing for a new
downvote; on retraction, the exact reverse of the original
contribution (`-1` when the removed vote was an upvote, nothing when it
was a downvote); and on a direction flip, `-1` for up-to-down and `+1`
for down-to-up. When the author is the actor, no adjustment is made. -/
theorem c1_reputation_delta (c : Comment) (votes : List CommentVote) (nextID : Nat)
    (user : ID) (up : Bool) (v : CommentVote) (r : VoteOutcome) :
    (c.vote votes false nextID user up = .ok r →
      r.repCall = if up = true ∧ c.authorID ≠ user then some (c.authorID, 1) else none)
    ∧ (votes.find? (fun w => w.commentID == c.id && w.userID == user) = some v →
      (c.deleteVote votes false user = .ok r →
        r.repCall = if v.up = true ∧ c.authorID ≠ user then some (c.authorID, -1) else none)
      ∧ (c.changeVote votes false user up = .ok r →
        r.repCall = if v.up = up ∨ c.authorID = user then none
          else some (c.authorID, if v.up then -1 else 1))) := by
  refine ⟨fun h => ?_, fun hf => ⟨fun h => ?_, fun h => ?_⟩⟩
  · simp only [Comment.vote] at h
    split at h
    · exact Except.noConfusion h
    · split at h
      · exact Except.noConfusion h
      · split at h
        · exact Except.noConfusion h
        · injection h with h
          subst h
          by_cases hau : c.authorID = user <;> cases up <;> simp [hau]
  · simp only [Comment.deleteVote] at h
    split at h
    · exact Except.noConfusion h
    · split at h
      · exact Except.noConfusion h
      · simp only [hf] at h
        injection h with h
        subst h
        by_cases hau : c.authorID = user <;> cases hvu : v.up <;> simp [hau, hvu]
  · simp only [Comment.changeVote] at h
    split at h
    · exact Except.noConfusion h
    · split at h
      · exact Except.noConfusion h
      · simp only [hf] at h
        split at h
        · rename_i hbu
          injection h with h
          subst h
          simp [show v.up = up from by simpa using hbu]
        · rename_i hbu
          injection h with h
          subst h
          have hvu : v.up ≠ up := by simpa using hbu
          by_cases hau : c.authorID = user <;> simp [hau, hvu]

/-- Witness for C1 at a concrete fresh upvote by user 99 on `cActive`:
the recorded reputation adjustment is `+1` to author 10. -/
theorem c1_reputation_delta_witness :
    voteUpRes.repCall = some (10, 1) := by
  have h := (c1_reputation_delta cActive [] 7 99 true ⟨0, 0, 0, false⟩ voteUpRes).1 rfl
  rw [if_pos ⟨rfl, by decide⟩] at h
  exact h

/-- C7: `ChangeVote` on a comment where the user's recorded direction
equals the requested one is a no-op success (comment, ledger, and
reputation untouched); with a different direction it succeeds, flips
the ledger record, applies a `±2` delta to the point total, and moves
exactly one count between the upvote and downvote columns. -/
theorem c7_change_vote (c : Comment) (votes : List CommentVote) (user : ID)
    (up : Bool) (v : CommentVote) (hd : c.Deleted = false)
    (hf : votes.find? (fun w => w.commentID == c.id && w.userID == user) = some v) :
    (v.up = up → c.changeVote votes false user up = .ok ⟨c, votes, none⟩)
    ∧ (v.up ≠ up → succeeds (c.changeVote votes false user up) = true)
    ∧ (v.up ≠ up → ∀ r, c.changeVote votes false user up = .ok r →
        r.comment.points = c.points + (if v.up then -2 else 2)
        ∧ r.comment.upvotes = c.upvotes + (if v.up then -1 else 1)
        ∧ r.comment.downvotes = c.downvotes + (if v.up then 1 else -1)
        ∧ r.comment.upvotes + r.comment.downvotes = c.upvotes + c.downvotes
        ∧ r.votes = votes.map (fun w => if w.id == v.id then { w with up := up } else w)) := by
  refine ⟨fun hvu => ?_, fun hvu => ?_, fun hvu r h => ?_⟩
  · simp [Comment.changeVote, hd, hf, hvu]
  · simp [Comment.changeVote, hd, hf, hvu, succeeds]
  · simp only [Comment.changeVote] at h
    split at h
    · exact Except.noConfusion h
    · split at h
      · exact Except.noConfusion h
      · simp only [hf] at h
        split at h
        · rename_i hbu
          exact absurd (by simpa using hbu) hvu
        · injection h with h
          subst h
          refine ⟨rfl, ?_, ?_, ?_, rfl⟩ <;> cases hvup : v.up <;> simp <;> ring

/-- Witness for C7: the spec's concrete example. User 99 flips their
upvote on `cUpvoted` (upvotes 1, downvotes 0, points 1) to a downvote,
yielding upvotes 0, downvotes 1, points −1; repeating `ChangeVote` with
the already-recorded direction is a no-op success. -/
theorem c7_change_vote_witness :
    changeRes.comment.upvotes = 0
    ∧ changeRes.comment.downvotes = 1
    ∧ changeRes.comment.points = -1
    ∧ cUpvoted.changeVote [voteUp1by99] false 99 true = .ok ⟨cUpvoted, [voteUp1by99], none⟩ := by
  have h := c7_change_vote cUpvoted [voteUp1by99] 99 false voteUp1by99 rfl rfl
  have hflip := h.2.2 (by decide) changeRes rfl
  have hnoop := (c7_change_vote cUpvoted [voteUp1by99] 99 true voteUp1by99 rfl rfl).1 rfl
  refine ⟨?_, ?_, ?_, hnoop⟩
  · rw [hflip.2.1]; rfl
  · rw [hflip.2.2.1]; rfl
  · rw [hflip.1]; rfl

end Discuit
